import Mathlib

/-!
Verification development for the physicslfo~ physics-based LFO engine.

The C source keeps all state in a single struct (t_physicslfo) and drives it
through a per-sample loop (physicslfo_perform64), six simulation functions
(simulate_bounce, simulate_elastic, simulate_bounce_spin,
simulate_elastic_overshoot, simulate_multibounce, simulate_wobble) and a
handful of message handlers (physicslfo_bang, physicslfo_looping,
physicslfo_phase, reset_physics_state).  Doubles are modelled as real
numbers; the C conversions (long) and fmod, the CLAMP macro and the fmax
calls are modelled explicitly below.
-/

noncomputable section

namespace PhysicsLfo

open Real

/-- The Max SDK CLAMP macro: values above hi give hi, below lo give lo. -/
def cclamp (x lo hi : ℝ) : ℝ :=
  if hi < x then hi else if x < lo then lo else x

/-- Conversion of a double to a C long truncates toward zero. -/
def ctrunc (q : ℝ) : ℤ :=
  if q < 0 then ⌈q⌉ else ⌊q⌋

/-- fmod(q, 1.0): remainder after truncated division, carries the sign of q. -/
def cfmod1 (q : ℝ) : ℝ :=
  q - (ctrunc q : ℝ)

/-- Models the loop: while (phase < 0.0) phase += 1.0.  Adding one,
ceil (-phase) times, is the first time the value becomes non-negative. -/
def wrapNonneg (phase : ℝ) : ℝ :=
  if phase < 0 then phase + (⌈-phase⌉ : ℤ) else phase

/-- The t_physicslfo struct: core oscillator state, held parameter scalars,
signal-connection flags, physics simulation state and the mode flags. -/
structure LfoState where
  phase : ℝ
  sr : ℝ
  sr_inv : ℝ
  freq_float : ℝ
  type_float : ℝ
  physics_float : ℝ
  damping_float : ℝ
  freq_has_signal : Bool
  type_has_signal : Bool
  physics_has_signal : Bool
  damping_has_signal : Bool
  velocity : ℝ
  acceleration : ℝ
  energy : ℝ
  bounce_count : ℝ
  last_value : ℝ
  spin_phase : ℝ
  looping_mode : Bool
  envelope_active : Bool

/-- reset_physics_state: clears velocity, acceleration, bounce_count and
spin_phase and restores full energy. -/
def reset_physics_state (x : LfoState) : LfoState :=
  { x with velocity := 0, acceleration := 0, energy := 1,
           bounce_count := 0, spin_phase := 0 }

/-- simulate_bounce (type 0): parabolic fall scaled by decaying energy; on
ground contact the energy is reduced and bounce_count incremented.  Returns
the output sample and the updated struct. -/
def simulate_bounce (x : LfoState) (t param damping : ℝ) : ℝ × LfoState :=
  let curve_power := 0.5 + param * 3.0
  let decay_factor := 1.0 - damping * t * 1.5
  let bounce_height := x.energy * max 0.1 decay_factor
  let height := bounce_height * (1.0 - t ^ curve_power)
  if height ≤ 0.0 then
    (cclamp 0.0 0.0 1.0,
     { x with energy := x.energy * (1.0 - damping * 0.8),
              bounce_count := x.bounce_count + 1.0 })
  else
    (cclamp height 0.0 1.0, x)

/-- simulate_elastic (type 1): damped oscillation remapped into the unit
range.  The first oscillation computed in the source is dead code, it is
overwritten by the drifted one, so only the final expression appears here. -/
def simulate_elastic (x : LfoState) (t tension damping : ℝ) : ℝ × LfoState :=
  let osc_frequency := 3.0 + tension * 12.0
  let decay_rate := 1.0 + damping * 4.0
  let decay_envelope := Real.exp (-decay_rate * t)
  let freq_drift := max 0.8 (1.0 - t * 0.1 * tension)
  let oscillation := Real.sin (2.0 * π * osc_frequency * freq_drift * t)
  let result := decay_envelope * oscillation
  let result := (result + 1.0) * 0.5
  let result := result * decay_envelope
  (result, x)

/-- simulate_bounce_spin (type 2): bounce trajectory combined additively with
a two-harmonic spin and a wobble term; gentler energy loss on contact. -/
def simulate_bounce_spin (x : LfoState) (t param damping : ℝ) : ℝ × LfoState :=
  let curve_power := 0.3 + param * 2.5
  let decay_factor := 1.0 - damping * t * 1.0
  let bounce_height := x.energy * max 0.15 decay_factor
  let base_bounce := bounce_height * (1.0 - t ^ curve_power)
  let primary_spin_freq := 3.0 + param * 12.0
  let secondary_spin_freq := 1.5 + param * 6.0
  let primary_spin := Real.sin (2.0 * π * primary_spin_freq * t)
  let secondary_spin := Real.sin (2.0 * π * secondary_spin_freq * t + π / 3)
  let complex_spin := primary_spin * 0.7 + secondary_spin * 0.3
  let spin_base_influence := 0.3 + param * 0.4
  let energy_boost := 1.0 + x.energy * 0.5
  let spin_influence := spin_base_influence * base_bounce * energy_boost
  let wobble_freq := 0.5 + param * 1.5
  let wobble := Real.sin (2.0 * π * wobble_freq * t) * 0.15 * param
  let final_height := base_bounce + complex_spin * spin_influence + wobble * base_bounce
  if final_height ≤ 0.0 then
    (max 0.0 0.0,
     { x with energy := x.energy * (1.0 - damping * 0.5),
              bounce_count := x.bounce_count + 1.0 })
  else
    (max 0.0 final_height, x)

/-- simulate_elastic_overshoot (type 3): exponential approach to equilibrium
0.6 plus a decaying sinusoidal overshoot, the overshoot forced to zero once
its decay envelope is below 0.01.  The sum itself is not clamped. -/
def simulate_elastic_overshoot (x : LfoState) (t tension damping : ℝ) : ℝ × LfoState :=
  let freq := 1.0 + tension * 4.0
  let overshoot_amount := 0.3 + tension * 0.4
  let equilibrium := 0.6
  let approach_rate := 2.0 + damping * 3.0
  let base_approach := equilibrium * (1.0 - Real.exp (-approach_rate * t))
  let overshoot_decay := Real.exp (-damping * t * 2.5)
  let overshoot_osc := Real.sin (2.0 * π * freq * t) * overshoot_amount * overshoot_decay
  let overshoot_osc := if overshoot_decay < 0.01 then 0.0 else overshoot_osc
  (base_approach + overshoot_osc, x)

/-- simulate_multibounce (type 4): per-bounce parabola with amplitude
retain to the power of the current bounce index, hard stop to exactly zero
once the amplitude drops below the 0.02 threshold. -/
def simulate_multibounce (x : LfoState) (t param damping : ℝ) : ℝ × LfoState :=
  let bounces_per_cycle := 2.0 + param * 6.0
  let segment_phase := cfmod1 (t * bounces_per_cycle)
  let current_bounce := ctrunc (t * bounces_per_cycle)
  let height := 4.0 * segment_phase * (1.0 - segment_phase)
  let energy_loss_per_bounce := 0.5 + damping * 0.4
  let bounce_amplitude := energy_loss_per_bounce ^ current_bounce
  let stop_threshold := 0.02
  if bounce_amplitude < stop_threshold then
    (0.0, x)
  else
    (height * bounce_amplitude, x)

/-- simulate_wobble (type 5): approach to equilibrium 0.5 plus a two-tone
beating term whose amplitude is forced to zero below 0.01.  Not clamped. -/
def simulate_wobble (x : LfoState) (t tension damping : ℝ) : ℝ × LfoState :=
  let base_freq := 1.5 + tension * 2.5
  let freq_spread := tension * 0.8
  let freq1 := base_freq
  let freq2 := base_freq + freq_spread
  let equilibrium := 0.5
  let approach_rate := 1.5 + damping * 2.0
  let base_level := equilibrium * (1.0 - Real.exp (-approach_rate * t))
  let wobble_decay := Real.exp (-damping * t * 1.2)
  let osc1 := Real.sin (2.0 * π * freq1 * t)
  let osc2 := Real.sin (2.0 * π * freq2 * t)
  let beating := (osc1 + osc2 * 0.8) / 1.8
  let wobble_amplitude := if wobble_decay < 0.01 then 0.0 else 0.3 * wobble_decay
  (base_level + beating * wobble_amplitude, x)

/-- The switch statement in physicslfo_perform64: dispatch on the truncated
type selector; the default case leaves the output value 0. -/
def applySim (ty : ℤ) (x : LfoState) (t p d : ℝ) : ℝ × LfoState :=
  if ty = 0 then simulate_bounce x t p d
  else if ty = 1 then simulate_elastic x t p d
  else if ty = 2 then simulate_bounce_spin x t p d
  else if ty = 3 then simulate_elastic_overshoot x t p d
  else if ty = 4 then simulate_multibounce x t p d
  else if ty = 5 then simulate_wobble x t p d
  else (0.0, x)

/-- Result of one iteration of the perform loop: the output sample, whether
the looping-mode wrap fired this sample, and the updated struct.  Since no
simulation writes the phase field, the phase stored in the state is exactly
the phase value that was passed to the selected simulation function. -/
structure StepOut where
  value : ℝ
  wrapped : Bool
  state : LfoState

/-- One iteration of the while loop of physicslfo_perform64, applied to the
four per-inlet input values for this sample (each inlet value is the signal
sample when connected, the held scalar otherwise). -/
def performStep (x : LfoState) (freqIn typeIn physIn dampIn : ℝ) : StepOut :=
  let freq := cclamp freqIn 0.0 1000.0
  let ty := ctrunc (cclamp typeIn 0.0 5.0)
  let physics_param := cclamp physIn 0.0 1.0
  let damping := cclamp dampIn 0.0 1.0
  if x.looping_mode then
    let phase1 := x.phase + freq * x.sr_inv
    let x1 := if 1.0 ≤ phase1 then reset_physics_state x else x
    let phase2 := if 1.0 ≤ phase1 then phase1 - 1.0 else phase1
    let phase3 := wrapNonneg phase2
    let r := applySim ty x1 phase3 physics_param damping
    { value := r.1,
      wrapped := if 1.0 ≤ phase1 then true else false,
      state := { r.2 with phase := phase3, last_value := r.1 } }
  else
    let phase1 := x.phase + freq * x.sr_inv
    let env1 := if x.envelope_active then
                  (if 1.0 ≤ phase1 then false else x.envelope_active)
                else x.envelope_active
    let x1 := { x with envelope_active := env1 }
    let r := applySim ty x1 phase1 physics_param damping
    { value := r.1,
      wrapped := false,
      state := { r.2 with phase := phase1, last_value := r.1 } }

/-- physicslfo_bang on the first inlet: reset phase and physics state; in
envelope mode additionally start a new envelope run. -/
def physicslfo_bang (x : LfoState) : LfoState :=
  if x.looping_mode then
    reset_physics_state { x with phase := 0.0 }
  else
    { reset_physics_state { x with phase := 0.0 } with envelope_active := true }

/-- physicslfo_looping: set the mode flag from the integer argument; when
switching looping off, also stop any active envelope. -/
def physicslfo_looping (x : LfoState) (n : ℤ) : LfoState :=
  let x1 := { x with looping_mode := decide (n ≠ 0) }
  if x1.looping_mode then x1 else { x1 with envelope_active := false }

/-- physicslfo_phase: in looping mode set the clamped phase and reset the
physics state; in envelope mode only a diagnostic is printed and the struct
is untouched. -/
def physicslfo_phase (x : LfoState) (f : ℝ) : LfoState :=
  if x.looping_mode then
    reset_physics_state { x with phase := cclamp f 0.0 1.0 }
  else
    x

/-- The list of states observed after each sample of a block, given the
per-sample inlet values. -/
def statesAfter (x : LfoState) : List (ℝ × ℝ × ℝ × ℝ) → List LfoState
  | [] => []
  | (f, ty, p, d) :: rest =>
      let x1 := (performStep x f ty p d).state
      x1 :: statesAfter x1 rest

/-- Drive the perform loop n samples with constant inlet values, returning
the final state and the number of looping-mode wraps that fired. -/
def runConst (f ty p d : ℝ) : LfoState → ℕ → LfoState × ℕ
  | x, 0 => (x, 0)
  | x, n + 1 =>
      let r := performStep x f ty p d
      let rest := runConst f ty p d r.state n
      (rest.1, (if r.wrapped then 1 else 0) + rest.2)

/-- The struct produced by physicslfo_new with no creation arguments, for a
host sample rate sr: defaults freq 1 Hz, type 0, shape 0.5, damping 0.1,
physics state freshly reset, looping mode on. -/
def initState (sr : ℝ) : LfoState :=
  reset_physics_state
    { phase := 0.0, sr := sr, sr_inv := 1.0 / sr,
      freq_float := 1.0, type_float := 0.0,
      physics_float := 0.5, damping_float := 0.1,
      freq_has_signal := false, type_has_signal := false,
      physics_has_signal := false, damping_has_signal := false,
      velocity := 0.0, acceleration := 0.0, energy := 1.0,
      bounce_count := 0.0, last_value := 0.0, spin_phase := 0.0,
      looping_mode := true, envelope_active := false }

/-- The instance after the message looping 0: envelope mode, nothing else
touched. -/
def envState : LfoState :=
  physicslfo_looping (initState 48000) 0

/-- The instance after looping 0 followed by a bang on inlet 1: a freshly
triggered envelope run. -/
def envTrigState : LfoState :=
  physicslfo_bang envState

/-!  Basic facts about the C helpers.  -/

lemma cclamp_mem {x lo hi : ℝ} (h : lo ≤ hi) :
    lo ≤ cclamp x lo hi ∧ cclamp x lo hi ≤ hi := by
  unfold cclamp
  split_ifs with h1 h2 <;> constructor <;> linarith

lemma cclamp_mem_of {x lo hi : ℝ} (lo' hi' : ℝ) (h : lo ≤ hi)
    (hlo : lo' ≤ lo) (hhi : hi ≤ hi') :
    lo' ≤ cclamp x lo hi ∧ cclamp x lo hi ≤ hi' := by
  obtain ⟨h1, h2⟩ := cclamp_mem h
  exact ⟨le_trans hlo h1, le_trans h2 hhi⟩

lemma ctrunc_of_nonneg {q : ℝ} (h : 0 ≤ q) : ctrunc q = ⌊q⌋ := by
  unfold ctrunc
  rw [if_neg (not_lt.2 h)]

lemma cfmod1_eq_fract {q : ℝ} (h : 0 ≤ q) : cfmod1 q = Int.fract q := by
  unfold cfmod1
  rw [ctrunc_of_nonneg h, Int.self_sub_floor]

lemma wrapNonneg_of_nonneg {q : ℝ} (h : 0 ≤ q) : wrapNonneg q = q := by
  unfold wrapNonneg
  rw [if_neg (not_lt.2 h)]

/-!  C6: a phase-set message in envelope mode is a complete no-op.  -/

/-- C6.  A phase-set message received while the instance is in envelope
mode leaves the whole struct unchanged: the requested value is fully
discarded, never partially applied. -/
theorem phase_msg_rejected_in_envelope_mode (x : LfoState) (f : ℝ)
    (h : x.looping_mode = false) : physicslfo_phase x f = x := by
  simp [physicslfo_phase, h]

/-- C6 witness: a concrete envelope-mode instance and a concrete requested
phase value of 0.7. -/
theorem phase_msg_rejected_witness :
    envState.looping_mode = false ∧ physicslfo_phase envState (7/10) = envState :=
  ⟨rfl, phase_msg_rejected_in_envelope_mode envState (7/10) rfl⟩

/-!  C8: the looping message touches only the mode flags.  -/

/-- C8.  The looping message mutates only the mode flags: switching looping
off (argument 0) also clears envelope_active, switching it on touches only
looping_mode; in both directions the phase, the physics state and all held
scalars are unchanged. -/
theorem looping_msg_touches_only_mode_flags (x : LfoState) (n : ℤ) :
    (physicslfo_looping x n).phase = x.phase ∧
    (physicslfo_looping x n).energy = x.energy ∧
    (physicslfo_looping x n).bounce_count = x.bounce_count ∧
    (physicslfo_looping x n).spin_phase = x.spin_phase ∧
    (physicslfo_looping x n).velocity = x.velocity ∧
    (physicslfo_looping x n).acceleration = x.acceleration ∧
    (physicslfo_looping x n).last_value = x.last_value ∧
    (physicslfo_looping x n).freq_float = x.freq_float ∧
    (physicslfo_looping x n).type_float = x.type_float ∧
    (physicslfo_looping x n).physics_float = x.physics_float ∧
    (physicslfo_looping x n).damping_float = x.damping_float ∧
    (physicslfo_looping x n).sr = x.sr ∧
    (physicslfo_looping x n).sr_inv = x.sr_inv ∧
    (physicslfo_looping x n).looping_mode = decide (n ≠ 0) ∧
    (physicslfo_looping x n).envelope_active =
      (if n = 0 then false else x.envelope_active) := by
  by_cases h : n = 0 <;> simp [physicslfo_looping, h]

/-!  C10: in looping mode, bang and a phase-set to 0.0 coincide.  -/

/-- C10.  In looping mode a bang trigger and a phase-set message with value
0.0 produce identical resulting structs: both set phase to 0 and perform
the same full physics reset. -/
theorem bang_eq_phase_zero_in_looping_mode (x : LfoState)
    (h : x.looping_mode = true) : physicslfo_bang x = physicslfo_phase x 0 := by
  simp [physicslfo_bang, physicslfo_phase, h]
  norm_num [cclamp]

/-- C10 witness: the freshly created looping-mode instance at sample rate
48000. -/
theorem bang_eq_phase_zero_witness :
    (initState 48000).looping_mode = true ∧
    physicslfo_bang (initState 48000) = physicslfo_phase (initState 48000) 0 :=
  ⟨rfl, bang_eq_phase_zero_in_looping_mode (initState 48000) rfl⟩

/-!  C5: energy dissipation.  -/

/-- C5.  Energy stays in the unit interval under every simulation call and
every call either leaves it unchanged or decreases it: ground contact in
types 0 and 2 multiplies it by a factor in the unit interval, the four
other types never write it, and reset_physics_state restores exactly 1. -/
theorem energy_unit_interval_and_dissipative (x : LfoState) (t p d : ℝ)
    (he0 : 0 ≤ x.energy) (he1 : x.energy ≤ 1) (hd0 : 0 ≤ d) (hd1 : d ≤ 1) :
    ((simulate_bounce x t p d).2.energy ≤ x.energy ∧
      0 ≤ (simulate_bounce x t p d).2.energy ∧
      (simulate_bounce x t p d).2.energy ≤ 1) ∧
    ((simulate_bounce_spin x t p d).2.energy ≤ x.energy ∧
      0 ≤ (simulate_bounce_spin x t p d).2.energy ∧
      (simulate_bounce_spin x t p d).2.energy ≤ 1) ∧
    (simulate_elastic x t p d).2.energy = x.energy ∧
    (simulate_elastic_overshoot x t p d).2.energy = x.energy ∧
    (simulate_multibounce x t p d).2.energy = x.energy ∧
    (simulate_wobble x t p d).2.energy = x.energy ∧
    (reset_physics_state x).energy = 1 := by
  refine ⟨⟨?_, ?_, ?_⟩, ⟨?_, ?_, ?_⟩, ?_, ?_, ?_, ?_, rfl⟩
  · simp only [simulate_bounce]
    split_ifs with hb
    · dsimp only
      nlinarith [mul_nonneg he0 hd0]
    · exact le_refl x.energy
  · simp only [simulate_bounce]
    split_ifs with hb
    · dsimp only
      nlinarith [mul_nonneg he0 hd0]
    · exact he0
  · simp only [simulate_bounce]
    split_ifs with hb
    · dsimp only
      nlinarith [mul_nonneg he0 hd0]
    · exact he1
  · simp only [simulate_bounce_spin]
    split_ifs with hb
    · dsimp only
      nlinarith [mul_nonneg he0 hd0]
    · exact le_refl x.energy
  · simp only [simulate_bounce_spin]
    split_ifs with hb
    · dsimp only
      nlinarith [mul_nonneg he0 hd0]
    · exact he0
  · simp only [simulate_bounce_spin]
    split_ifs with hb
    · dsimp only
      nlinarith [mul_nonneg he0 hd0]
    · exact he1
  · simp [simulate_elastic]
  · simp [simulate_elastic_overshoot]
  · simp only [simulate_multibounce]
    split_ifs <;> rfl
  · simp [simulate_wobble]

/-- C5 witness: the freshly created instance, phase 0.3, shape 0.5,
damping 0.5. -/
theorem energy_unit_interval_witness :
    (0 ≤ (initState 48000).energy ∧ (initState 48000).energy ≤ 1 ∧
      (0:ℝ) ≤ 1/2 ∧ (1:ℝ)/2 ≤ 1) ∧
    ((simulate_bounce (initState 48000) (3/10) (1/2) (1/2)).2.energy ≤
        (initState 48000).energy ∧
      0 ≤ (simulate_bounce (initState 48000) (3/10) (1/2) (1/2)).2.energy ∧
      (simulate_bounce (initState 48000) (3/10) (1/2) (1/2)).2.energy ≤ 1) ∧
    ((simulate_bounce_spin (initState 48000) (3/10) (1/2) (1/2)).2.energy ≤
        (initState 48000).energy ∧
      0 ≤ (simulate_bounce_spin (initState 48000) (3/10) (1/2) (1/2)).2.energy ∧
      (simulate_bounce_spin (initState 48000) (3/10) (1/2) (1/2)).2.energy ≤ 1) ∧
    (simulate_elastic (initState 48000) (3/10) (1/2) (1/2)).2.energy =
      (initState 48000).energy ∧
    (simulate_elastic_overshoot (initState 48000) (3/10) (1/2) (1/2)).2.energy =
      (initState 48000).energy ∧
    (simulate_multibounce (initState 48000) (3/10) (1/2) (1/2)).2.energy =
      (initState 48000).energy ∧
    (simulate_wobble (initState 48000) (3/10) (1/2) (1/2)).2.energy =
      (initState 48000).energy ∧
    (reset_physics_state (initState 48000)).energy = 1 :=
  ⟨⟨by norm_num [initState, reset_physics_state],
    by norm_num [initState, reset_physics_state], by norm_num, by norm_num⟩,
    energy_unit_interval_and_dissipative (initState 48000) (3/10) (1/2) (1/2)
      (by norm_num [initState, reset_physics_state])
      (by norm_num [initState, reset_physics_state])
      (by norm_num) (by norm_num)⟩

/-!  Multi-bounce helpers shared by several claims.  -/

/-- If the computed amplitude is below the stop threshold, the multi-bounce
output is exactly zero. -/
lemma multibounce_eq_zero_of_amp_lt (x : LfoState) (t p d : ℝ)
    (h : (0.5 + d * 0.4) ^ ctrunc (t * (2.0 + p * 6.0)) < 0.02) :
    (simulate_multibounce x t p d).1 = 0 := by
  simp only [simulate_multibounce]
  rw [if_pos h]
  norm_num

/-- The multi-bounce amplitude is antitone in the phase: a later phase in
the run never has a larger amplitude. -/
lemma multibounce_amp_anti (p d t t' : ℝ) (ht : 0 ≤ t) (htt : t ≤ t')
    (hp0 : 0 ≤ p) (hd0 : 0 ≤ d) (hd1 : d ≤ 1) :
    (0.5 + d * 0.4) ^ ctrunc (t' * (2.0 + p * 6.0)) ≤
      (0.5 + d * 0.4) ^ ctrunc (t * (2.0 + p * 6.0)) := by
  have hb : (0:ℝ) ≤ 2.0 + p * 6.0 := by nlinarith
  have hq : (0:ℝ) ≤ t * (2.0 + p * 6.0) := mul_nonneg ht hb
  have hq' : (0:ℝ) ≤ t' * (2.0 + p * 6.0) := mul_nonneg (le_trans ht htt) hb
  have hle : t * (2.0 + p * 6.0) ≤ t' * (2.0 + p * 6.0) :=
    mul_le_mul_of_nonneg_right htt hb
  rw [ctrunc_of_nonneg hq, ctrunc_of_nonneg hq']
  have hk : (0:ℤ) ≤ ⌊t * (2.0 + p * 6.0)⌋ := Int.floor_nonneg.2 hq
  have hk' : ⌊t * (2.0 + p * 6.0)⌋ ≤ ⌊t' * (2.0 + p * 6.0)⌋ :=
    Int.floor_le_floor hle
  obtain ⟨a, ha⟩ := Int.eq_ofNat_of_zero_le hk
  obtain ⟨b, hbk⟩ := Int.eq_ofNat_of_zero_le (le_trans hk hk')
  rw [ha, hbk, zpow_natCast, zpow_natCast]
  have hab : a ≤ b := by
    have := hk'
    rw [ha, hbk] at this
    exact_mod_cast this
  exact pow_le_pow_of_le_one (by linarith) (by linarith) hab

/-!  C4: once the amplitude is below 0.02, the output stays exactly 0.  -/

/-- C4.  For the type-4 multi-bounce function with fixed shape and damping,
if the computed amplitude retain to the floor of t times bounces is below
0.02 at phase t, the function returns exactly 0.0 at every phase t' at or
after t. -/
theorem multibounce_zero_is_absorbing (x : LfoState) (t t' p d : ℝ)
    (ht : 0 ≤ t) (htt : t ≤ t') (hp0 : 0 ≤ p) (hd0 : 0 ≤ d) (hd1 : d ≤ 1)
    (hamp : (0.5 + d * 0.4) ^ ctrunc (t * (2.0 + p * 6.0)) < 0.02) :
    (simulate_multibounce x t' p d).1 = 0 :=
  multibounce_eq_zero_of_amp_lt x t' p d
    (lt_of_le_of_lt (multibounce_amp_anti p d t t' ht htt hp0 hd0 hd1) hamp)

/-- C4 witness: shape 0.5 (5 bounces per unit phase), damping 1 (retain
0.9), phase pair 38/5 and 8; the amplitude at 38/5 is 0.9 to the 38th
power, below 0.02. -/
theorem multibounce_zero_is_absorbing_witness :
    ((0:ℝ) ≤ 38/5 ∧ (38/5:ℝ) ≤ 8 ∧
      (0.5 + (1:ℝ) * 0.4) ^ ctrunc ((38/5) * (2.0 + (1/2) * 6.0)) < 0.02) ∧
    (simulate_multibounce (initState 48000) 8 (1/2) 1).1 = 0 := by
  have hfl : ctrunc ((38/5 : ℝ) * (2.0 + (1/2) * 6.0)) = 38 := by
    rw [ctrunc_of_nonneg (by norm_num)]
    rw [show ((38/5 : ℝ) * (2.0 + (1/2) * 6.0)) = ((38:ℤ) : ℝ) by norm_num]
    exact Int.floor_intCast 38
  have hamp : (0.5 + (1:ℝ) * 0.4) ^ ctrunc ((38/5) * (2.0 + (1/2) * 6.0)) < 0.02 := by
    rw [hfl, show ((38:ℤ)) = ((38:ℕ):ℤ) from rfl, zpow_natCast]
    norm_num
  exact ⟨⟨by norm_num, by norm_num, hamp⟩,
    multibounce_zero_is_absorbing (initState 48000) (38/5) 8 (1/2) 1
      (by norm_num) (by norm_num) (by norm_num) (by norm_num) (by norm_num) hamp⟩

/-!  C2: scenario B.  With shape 0.5 and damping 1 the retain factor is 0.9
and the amplitude first drops below 0.02 at bounce index 38, which is phase
38/5 = 7.6 — far past 1.0.  The claimed rest before phase 1.0 is false; the
true statement is rest from phase 7.6 on, in particular before phase 8.  -/

/-- The type-4 output at phase 11/10 with shape 0.5 and damping 1 is the
amplitude 0.9 to the 5th power, not zero. -/
lemma multibounce_val_at_11_10 (x : LfoState) :
    (simulate_multibounce x (11/10) (1/2) 1).1 = 59049/100000 := by
  have hq : ((11/10 : ℝ) * (2.0 + (1/2) * 6.0)) = 11/2 := by norm_num
  have hc : ctrunc (11/2 : ℝ) = 5 := by
    rw [ctrunc_of_nonneg (by norm_num), Int.floor_eq_iff]
    norm_num
  simp only [simulate_multibounce, cfmod1, hq, hc]
  rw [show ((5:ℤ)) = ((5:ℕ):ℤ) from rfl, zpow_natCast]
  rw [if_neg (by norm_num)]
  norm_num

/-- C2 counterexample: with type 4, shape 0.5, damping 1, after a trigger
in envelope mode there is no phase below 1.0 from which the output is zero
forever: the phase 11/10 lies after every such candidate and has nonzero
output. -/
theorem multibounce_rest_before_one_false :
    ¬ ∃ t0 : ℝ, 0 ≤ t0 ∧ t0 < 1 ∧
      (simulate_multibounce envTrigState t0 (1/2) 1).1 = 0 ∧
      ∀ t', t0 ≤ t' → (simulate_multibounce envTrigState t' (1/2) 1).1 = 0 := by
  rintro ⟨t0, h0, h1, hz, hall⟩
  have h := hall (11/10) (by linarith)
  rw [multibounce_val_at_11_10] at h
  norm_num at h

/-- C2 amended.  With type 4, shape 0.5 and damping 1 (retain 0.9), after a
single trigger in envelope mode the output reaches exactly 0.0 at a phase
strictly below 8.0 (namely 38/5) and is 0.0 for all later phases of the
run; it does not reach permanent rest before phase 1.0. -/
theorem multibounce_rest_before_eight :
    ∃ t0 : ℝ, 0 ≤ t0 ∧ t0 < 8 ∧
      (simulate_multibounce envTrigState t0 (1/2) 1).1 = 0 ∧
      ∀ t', t0 ≤ t' → (simulate_multibounce envTrigState t' (1/2) 1).1 = 0 := by
  have hfl : ctrunc ((38/5 : ℝ) * (2.0 + (1/2) * 6.0)) = 38 := by
    rw [ctrunc_of_nonneg (by norm_num)]
    rw [show ((38/5 : ℝ) * (2.0 + (1/2) * 6.0)) = ((38:ℤ) : ℝ) by norm_num]
    exact Int.floor_intCast 38
  have hamp : (0.5 + (1:ℝ) * 0.4) ^ ctrunc ((38/5) * (2.0 + (1/2) * 6.0)) < 0.02 := by
    rw [hfl, show ((38:ℤ)) = ((38:ℕ):ℤ) from rfl, zpow_natCast]
    norm_num
  refine ⟨38/5, by norm_num, by norm_num,
    multibounce_eq_zero_of_amp_lt _ _ _ _ hamp, fun t' ht' => ?_⟩
  exact multibounce_eq_zero_of_amp_lt _ _ _ _
    (lt_of_le_of_lt
      (multibounce_amp_anti (1/2) 1 (38/5) t' (by norm_num) ht'
        (by norm_num) (by norm_num) (by norm_num))
      hamp)

/-!  C1: the output range invariant.  Types 0, 1 and 4 do stay inside the
unit interval; type 3 (and likewise 2 and 5) has no final clamp and can
leave it, so the claim over all six types is false.  -/

/-- A nonnegative integer power of a base in the half-open unit interval
stays at most one. -/
lemma zpow_le_one_of_nonneg_exp (r : ℝ) (k : ℤ) (h0 : 0 < r) (h1 : r ≤ 1)
    (hk : 0 ≤ k) : r ^ k ≤ 1 := by
  obtain ⟨a, rfl⟩ := Int.eq_ofNat_of_zero_le hk
  rw [zpow_natCast]
  exact pow_le_one₀ h0.le h1

lemma elastic_core (e s : ℝ) (h0 : 0 < e) (h1 : e ≤ 1) (hs1 : -1 ≤ s)
    (hs2 : s ≤ 1) : 0 ≤ (e * s + 1.0) * 0.5 * e ∧ (e * s + 1.0) * 0.5 * e ≤ 1 :=
  ⟨by nlinarith [mul_nonneg (mul_nonneg h0.le h0.le) (by linarith : (0:ℝ) ≤ s + 1),
      mul_nonneg h0.le (by linarith : (0:ℝ) ≤ 1 - e)],
   by nlinarith [mul_nonneg (mul_nonneg h0.le h0.le) (by linarith : (0:ℝ) ≤ 1 - s),
      mul_nonneg (by linarith : (0:ℝ) ≤ 1 - e) (by linarith : (0:ℝ) ≤ 1 + e)]⟩

lemma mb_core (f a : ℝ) (hf0 : 0 ≤ f) (hf1 : f < 1) (ha0 : 0 < a)
    (ha1 : a ≤ 1) : 0 ≤ 4.0 * f * (1.0 - f) * a ∧ 4.0 * f * (1.0 - f) * a ≤ 1 := by
  have hh0 : 0 ≤ 4.0 * f * (1.0 - f) := by nlinarith
  exact ⟨mul_nonneg hh0 ha0.le,
    by nlinarith [sq_nonneg (2 * f - 1), mul_nonneg hh0 (by linarith : (0:ℝ) ≤ 1 - a)]⟩

/-- Type 0 output is clamped, hence in the unit interval. -/
lemma simulate_bounce_mem (x : LfoState) (t p d : ℝ) :
    (simulate_bounce x t p d).1 ∈ Set.Icc (0:ℝ) 1 := by
  simp only [simulate_bounce]
  split_ifs <;>
    exact Set.mem_Icc.2
      (cclamp_mem_of 0 1 (by norm_num) (by norm_num) (by norm_num))

/-- Type 1 output lies in the unit interval for nonnegative phase and
damping. -/
lemma simulate_elastic_mem (x : LfoState) (t tension damping : ℝ)
    (ht : 0 ≤ t) (hd0 : 0 ≤ damping) :
    (simulate_elastic x t tension damping).1 ∈ Set.Icc (0:ℝ) 1 := by
  simp only [simulate_elastic, Set.mem_Icc]
  exact elastic_core _ _ (Real.exp_pos _)
    (by rw [Real.exp_le_one_iff]; nlinarith)
    (Real.neg_one_le_sin _) (Real.sin_le_one _)

/-- Type 4 output lies in the unit interval for nonnegative phase, shape
in the unit interval and damping in the unit interval. -/
lemma simulate_multibounce_mem (x : LfoState) (t p d : ℝ) (ht : 0 ≤ t)
    (hp0 : 0 ≤ p) (hd0 : 0 ≤ d) (hd1 : d ≤ 1) :
    (simulate_multibounce x t p d).1 ∈ Set.Icc (0:ℝ) 1 := by
  have hq : (0:ℝ) ≤ t * (2.0 + p * 6.0) := mul_nonneg ht (by nlinarith)
  have hr0 : (0:ℝ) < 0.5 + d * 0.4 := by nlinarith
  have hr1 : (0.5 + d * 0.4 : ℝ) ≤ 1 := by nlinarith
  simp only [simulate_multibounce, Set.mem_Icc]
  split_ifs with hstop
  · norm_num
  · rw [cfmod1_eq_fract hq]
    exact mb_core _ _ (Int.fract_nonneg _) (Int.fract_lt_one _)
      (by rw [ctrunc_of_nonneg hq]; exact zpow_pos hr0 _)
      (by rw [ctrunc_of_nonneg hq]
          exact zpow_le_one_of_nonneg_exp _ _ hr0 hr1 (Int.floor_nonneg.2 hq))

/-- Type 3 at phase 3/20, tension 1, damping 0 is negative: the base
approach is below 0.6 while the overshoot term is exactly -0.7. -/
lemma overshoot_neg (x : LfoState) :
    (simulate_elastic_overshoot x (3/20) 1 0).1 < 0 := by
  simp only [simulate_elastic_overshoot]
  norm_num [Real.exp_zero]
  have h1 : Real.sin (2 * π * 5 * (3/20)) = -1 := by
    rw [show (2 * π * 5 * ((3:ℝ)/20)) = π + π/2 by ring, Real.sin_add,
      Real.sin_pi, Real.cos_pi, Real.sin_pi_div_two, Real.cos_pi_div_two]
    norm_num
  linarith [Real.exp_pos (-(3:ℝ)/10)]

/-- C1 counterexample: with simulation type 3, phase 3/20 (a phase value
reachable in either mode), shape 1, damping 0, and the freshly created
instance state (energy 1, bounce_count 0), the dispatched output is
outside the unit interval. -/
theorem output_range_counterexample :
    (applySim 3 (initState 48000) (3/20) 1 0).1 ∉ Set.Icc (0:ℝ) 1 := by
  have happ : (applySim 3 (initState 48000) (3/20) 1 0).1 =
      (simulate_elastic_overshoot (initState 48000) (3/20) 1 0).1 := by
    norm_num [applySim]
  rw [happ, Set.mem_Icc]
  push_neg
  intro h0
  linarith [overshoot_neg (initState 48000)]

/-- C1 amended.  For every nonnegative phase, shape and damping in the
unit interval, and energy in the unit interval, the outputs of simulation
types 0, 1 and 4 lie in the unit interval; types 2, 3 and 5 carry no such
guarantee (type 3 escapes it, see the counterexample). -/
theorem output_range_types_0_1_4 (ty : ℤ) (x : LfoState) (t p d : ℝ)
    (hty : ty = 0 ∨ ty = 1 ∨ ty = 4) (ht : 0 ≤ t) (hp0 : 0 ≤ p) (hp1 : p ≤ 1)
    (hd0 : 0 ≤ d) (hd1 : d ≤ 1) (he0 : 0 ≤ x.energy) (he1 : x.energy ≤ 1) :
    (applySim ty x t p d).1 ∈ Set.Icc (0:ℝ) 1 := by
  rcases hty with rfl | rfl | rfl
  · have h : (applySim 0 x t p d).1 = (simulate_bounce x t p d).1 := by
      norm_num [applySim]
    rw [h]
    exact simulate_bounce_mem x t p d
  · have h : (applySim 1 x t p d).1 = (simulate_elastic x t p d).1 := by
      norm_num [applySim]
    rw [h]
    exact simulate_elastic_mem x t p d ht hd0
  · have h : (applySim 4 x t p d).1 = (simulate_multibounce x t p d).1 := by
      norm_num [applySim]
    rw [h]
    exact simulate_multibounce_mem x t p d ht hp0 hd0 hd1

/-- C1 witness: type 4 at phase 1/3, shape 1/2, damping 1/2, fresh
instance. -/
theorem output_range_types_0_1_4_witness :
    (((4:ℤ) = 0 ∨ (4:ℤ) = 1 ∨ (4:ℤ) = 4) ∧ (0:ℝ) ≤ 1/3 ∧
      0 ≤ (initState 48000).energy ∧ (initState 48000).energy ≤ 1) ∧
    (applySim 4 (initState 48000) (1/3) (1/2) (1/2)).1 ∈ Set.Icc (0:ℝ) 1 :=
  ⟨⟨Or.inr (Or.inr rfl), by norm_num,
    by norm_num [initState, reset_physics_state],
    by norm_num [initState, reset_physics_state]⟩,
   output_range_types_0_1_4 4 (initState 48000) (1/3) (1/2) (1/2)
     (Or.inr (Or.inr rfl)) (by norm_num) (by norm_num) (by norm_num)
     (by norm_num) (by norm_num)
     (by norm_num [initState, reset_physics_state])
     (by norm_num [initState, reset_physics_state])⟩

/-!  State-frame lemmas: a simulation call can only write energy and
bounce_count, and one perform iteration additionally writes phase,
last_value, envelope_active and the reset fields.  -/

lemma simulate_bounce_snd (x : LfoState) (t p d : ℝ) :
    ∃ e b, (simulate_bounce x t p d).2 = { x with energy := e, bounce_count := b } := by
  simp only [simulate_bounce]
  split_ifs
  · exact ⟨_, _, rfl⟩
  · exact ⟨x.energy, x.bounce_count, rfl⟩

lemma simulate_bounce_spin_snd (x : LfoState) (t p d : ℝ) :
    ∃ e b, (simulate_bounce_spin x t p d).2 = { x with energy := e, bounce_count := b } := by
  simp only [simulate_bounce_spin]
  split_ifs
  · exact ⟨_, _, rfl⟩
  · exact ⟨x.energy, x.bounce_count, rfl⟩

lemma simulate_multibounce_snd (x : LfoState) (t p d : ℝ) :
    ∃ e b, (simulate_multibounce x t p d).2 = { x with energy := e, bounce_count := b } := by
  simp only [simulate_multibounce]
  split_ifs <;> exact ⟨x.energy, x.bounce_count, rfl⟩

lemma applySim_snd (ty : ℤ) (x : LfoState) (t p d : ℝ) :
    ∃ e b, (applySim ty x t p d).2 = { x with energy := e, bounce_count := b } := by
  unfold applySim
  split_ifs
  · exact simulate_bounce_snd x t p d
  · exact ⟨x.energy, x.bounce_count, rfl⟩
  · exact simulate_bounce_spin_snd x t p d
  · exact ⟨x.energy, x.bounce_count, rfl⟩
  · exact simulate_multibounce_snd x t p d
  · exact ⟨x.energy, x.bounce_count, rfl⟩
  · exact ⟨x.energy, x.bounce_count, rfl⟩

lemma applySim_snd_looping (ty : ℤ) (x : LfoState) (t p d : ℝ) :
    (applySim ty x t p d).2.looping_mode = x.looping_mode := by
  obtain ⟨e, b, h⟩ := applySim_snd ty x t p d
  rw [h]

lemma applySim_snd_sr_inv (ty : ℤ) (x : LfoState) (t p d : ℝ) :
    (applySim ty x t p d).2.sr_inv = x.sr_inv := by
  obtain ⟨e, b, h⟩ := applySim_snd ty x t p d
  rw [h]

/-- One perform iteration never changes the mode flag. -/
lemma performStep_looping_mode (x : LfoState) (f t p d : ℝ) :
    (performStep x f t p d).state.looping_mode = x.looping_mode := by
  simp only [performStep]
  split_ifs <;> simp [applySim_snd_looping, reset_physics_state]

/-- One perform iteration never changes the cached reciprocal sample
rate. -/
lemma performStep_sr_inv (x : LfoState) (f t p d : ℝ) :
    (performStep x f t p d).state.sr_inv = x.sr_inv := by
  simp only [performStep]
  split_ifs <;> simp [applySim_snd_sr_inv, reset_physics_state]

/-- The phase stored after one envelope-mode iteration (also the phase
passed to the simulation): the increment is simply added. -/
lemma performStep_phase_envelope (x : LfoState) (f t p d : ℝ)
    (hm : x.looping_mode = false) :
    (performStep x f t p d).state.phase =
      x.phase + cclamp f 0.0 1000.0 * x.sr_inv := by
  simp [performStep, hm]

/-- The phase stored after one looping-mode iteration (also the phase
passed to the simulation): increment, single conditional subtract of one,
then the negative-phase guard. -/
lemma performStep_phase_looping (x : LfoState) (f t p d : ℝ)
    (hm : x.looping_mode = true) :
    (performStep x f t p d).state.phase =
      wrapNonneg (if 1.0 ≤ x.phase + cclamp f 0.0 1000.0 * x.sr_inv
                  then x.phase + cclamp f 0.0 1000.0 * x.sr_inv - 1.0
                  else x.phase + cclamp f 0.0 1000.0 * x.sr_inv) := by
  simp only [performStep, hm]
  split_ifs <;> simp

/-!  C7: envelope-mode phase is non-decreasing sample to sample.  -/

/-- C7.  In envelope mode, for every sequence of per-sample inputs, phase
is non-decreasing from each sample to the next for the entire run,
including after envelope_active has become false: no step wraps, clamps or
otherwise decreases phase. -/
theorem envelope_phase_nondecreasing (x : LfoState)
    (hm : x.looping_mode = false) (hs : 0 ≤ x.sr_inv)
    (inputs : List (ℝ × ℝ × ℝ × ℝ)) :
    List.Chain (fun a b : LfoState => a.phase ≤ b.phase) x (statesAfter x inputs) := by
  induction inputs generalizing x with
  | nil =>
      simp only [statesAfter]
      exact List.Chain.nil
  | cons hd tl ih =>
      obtain ⟨f, ty, p, d⟩ := hd
      simp only [statesAfter]
      refine List.Chain.cons ?_ (ih _ ?_ ?_)
      · rw [performStep_phase_envelope x f ty p d hm]
        have hc := @cclamp_mem_of f 0.0 1000.0 0 1000 (by norm_num)
          (by norm_num) (by norm_num)
        linarith [mul_nonneg hc.1 hs]
      · rw [performStep_looping_mode]
        exact hm
      · rw [performStep_sr_inv]
        exact hs

/-- C7 witness: a concrete envelope-mode instance driven for three samples
at rate 2 Hz. -/
theorem envelope_phase_nondecreasing_witness :
    (envState.looping_mode = false ∧ 0 ≤ envState.sr_inv) ∧
    List.Chain (fun a b : LfoState => a.phase ≤ b.phase) envState
      (statesAfter envState [(2, 1, 3/10, 2/5), (2, 1, 3/10, 2/5), (2, 1, 3/10, 2/5)]) :=
  ⟨⟨rfl, by norm_num [envState, physicslfo_looping, initState, reset_physics_state]⟩,
   envelope_phase_nondecreasing envState rfl
     (by norm_num [envState, physicslfo_looping, initState, reset_physics_state])
     [(2, 1, 3/10, 2/5), (2, 1, 3/10, 2/5), (2, 1, 3/10, 2/5)]⟩

/-!  C3: looping-mode phase containment.  The single subtract-1.0 wrap can
leave the phase at or above 1.0 whenever a per-sample increment reaches
1.0, which happens at host sample rates of 1000 Hz or below; with every
per-sample increment below 1.0 the invariant holds.  -/

/-- C3 counterexample: at host sample rate 500 (so the increment for a
rate input of 1000 is 2.0), starting from phase 0, the very first sample
hands the simulation the phase 1.0, which is outside the half-open unit
interval. -/
theorem looping_phase_escapes_unit :
    (performStep (initState 500) 1000 0 (1/2) (1/10)).state.phase ∉
      Set.Ico (0:ℝ) 1 := by
  rw [performStep_phase_looping (initState 500) 1000 0 (1/2) (1/10) rfl]
  have h1 : cclamp 1000 0.0 1000.0 = 1000 := by unfold cclamp; norm_num
  rw [h1]
  norm_num [initState, reset_physics_state, wrapNonneg, Set.mem_Ico]

/-- C3 amended.  In looping mode, for every sequence of per-sample rate
inputs and every starting phase in the closed unit interval, provided
every possible per-sample increment is below one (reciprocal sample rate
times the 1000 Hz rate cap below one, true of every sample rate above
1000 Hz), the phase handed to the simulation at each sample lies in the
half-open unit interval.  At sample rates of 1000 Hz and below the claim
fails (see the counterexample). -/
theorem looping_sim_phase_in_unit (x : LfoState) (hm : x.looping_mode = true)
    (hs0 : 0 ≤ x.sr_inv) (hs1 : x.sr_inv * 1000 < 1)
    (hp0 : 0 ≤ x.phase) (hp1 : x.phase ≤ 1)
    (inputs : List (ℝ × ℝ × ℝ × ℝ)) :
    ∀ s' ∈ statesAfter x inputs, s'.phase ∈ Set.Ico (0:ℝ) 1 := by
  induction inputs generalizing x with
  | nil =>
      simp [statesAfter]
  | cons hd tl ih =>
      obtain ⟨f, ty, p, d⟩ := hd
      simp only [statesAfter, List.mem_cons]
      have hc := @cclamp_mem_of f 0.0 1000.0 0 1000 (by norm_num)
        (by norm_num) (by norm_num)
      have hinc0 : 0 ≤ cclamp f 0.0 1000.0 * x.sr_inv := mul_nonneg hc.1 hs0
      have hinc1 : cclamp f 0.0 1000.0 * x.sr_inv < 1 := by
        have := mul_le_mul_of_nonneg_right hc.2 hs0
        nlinarith
      have hstep : (performStep x f ty p d).state.phase ∈ Set.Ico (0:ℝ) 1 := by
        rw [performStep_phase_looping x f ty p d hm]
        split_ifs with hw
        · rw [wrapNonneg_of_nonneg (by linarith)]
          exact Set.mem_Ico.2 ⟨by linarith, by linarith⟩
        · push_neg at hw
          rw [wrapNonneg_of_nonneg (by linarith)]
          exact Set.mem_Ico.2 ⟨by linarith, by linarith⟩
      rintro s' (rfl | hmem)
      · exact hstep
      · exact ih _ (by rw [performStep_looping_mode]; exact hm)
          (by rw [performStep_sr_inv]; exact hs0)
          (by rw [performStep_sr_inv]; exact hs1)
          hstep.1 (le_of_lt hstep.2) s' hmem

/-- C3 witness: the freshly created instance at 48000 Hz driven for two
samples with rate inputs 1 and 500. -/
theorem looping_sim_phase_in_unit_witness :
    ((initState 48000).looping_mode = true ∧ 0 ≤ (initState 48000).sr_inv ∧
      (initState 48000).sr_inv * 1000 < 1 ∧ 0 ≤ (initState 48000).phase ∧
      (initState 48000).phase ≤ 1) ∧
    ∀ s' ∈ statesAfter (initState 48000) [(1, 0, 1/2, 1/10), (500, 0, 1/2, 1/10)],
      s'.phase ∈ Set.Ico (0:ℝ) 1 :=
  ⟨⟨rfl, by norm_num [initState, reset_physics_state],
    by norm_num [initState, reset_physics_state],
    by norm_num [initState, reset_physics_state],
    by norm_num [initState, reset_physics_state]⟩,
   looping_sim_phase_in_unit (initState 48000) rfl
     (by norm_num [initState, reset_physics_state])
     (by norm_num [initState, reset_physics_state])
     (by norm_num [initState, reset_physics_state])
     (by norm_num [initState, reset_physics_state])
     [(1, 0, 1/2, 1/10), (500, 0, 1/2, 1/10)]⟩

/-!  C9: one second of looping-mode drive at 1 Hz and 48000 Hz.  -/

/-- Running m plus n constant-input samples is running m, then n, and the
wrap counts add. -/
lemma runConst_add (f ty p d : ℝ) (m n : ℕ) (x : LfoState) :
    runConst f ty p d x (m + n) =
      ((runConst f ty p d (runConst f ty p d x m).1 n).1,
       (runConst f ty p d x m).2 +
         (runConst f ty p d (runConst f ty p d x m).1 n).2) := by
  induction m generalizing x with
  | zero => simp [runConst]
  | succ m ih =>
      have hsucc : m + 1 + n = (m + n) + 1 := by omega
      rw [hsucc]
      simp only [runConst]
      rw [ih]
      simp [Nat.add_assoc]

/-- In the bounce simulation with shape 0.5, damping 0.1 and full energy,
no ground contact happens at any phase in the half-open unit interval, so
the struct is returned untouched. -/
lemma simulate_bounce_state_id (x : LfoState) (t : ℝ) (he : x.energy = 1)
    (ht0 : 0 ≤ t) (ht1 : t < 1) :
    (simulate_bounce x t (1/2) (1/10)).2 = x := by
  have hpow : t ^ ((0.5 : ℝ) + 1/2 * 3.0) = t ^ (2 : ℕ) := by
    rw [show ((0.5:ℝ) + 1/2 * 3.0) = ((2:ℕ):ℝ) by norm_num, Real.rpow_natCast]
  have h2 : t ^ (2:ℕ) < 1 := pow_lt_one₀ ht0 ht1 (by norm_num)
  have hmax : (0.1:ℝ) ≤ max 0.1 (1.0 - 1/10 * t * 1.5) := le_max_left _ _
  have hgt : ¬ (x.energy * max 0.1 (1.0 - 1/10 * t * 1.5) *
      (1.0 - t ^ ((0.5:ℝ) + 1/2 * 3.0)) ≤ 0.0) := by
    rw [he, hpow]
    push_neg
    nlinarith
  simp only [simulate_bounce]
  rw [if_neg hgt]

lemma applySim_zero (y : LfoState) (t p d : ℝ) :
    applySim 0 y t p d = simulate_bounce y t p d := by
  norm_num [applySim]

/-- One scenario sample that does not reach the cycle boundary: no wrap,
phase advances by one 48000th, nothing else but last_value changes. -/
lemma performStep_c9_mid (x : LfoState) (n : ℕ) (hm : x.looping_mode = true)
    (hsr : x.sr_inv = 1/48000) (hp : x.phase = (n : ℝ)/48000)
    (he : x.energy = 1) (hn : n + 1 < 48000) :
    (performStep x 1 0 (1/2) (1/10)).wrapped = false ∧
    ∃ v, (performStep x 1 0 (1/2) (1/10)).state =
      { x with phase := ((n : ℝ) + 1)/48000, last_value := v } := by
  have hc1 : cclamp 1 0.0 1000.0 = 1 := by unfold cclamp; norm_num
  have hty : ctrunc (cclamp 0 0.0 5.0) = 0 := by
    unfold cclamp ctrunc
    norm_num
  have hc2 : cclamp (1/2) 0.0 1.0 = 1/2 := by unfold cclamp; norm_num
  have hc3 : cclamp (1/10) 0.0 1.0 = 1/10 := by unfold cclamp; norm_num
  have hph1 : x.phase + cclamp 1 0.0 1000.0 * x.sr_inv = ((n:ℝ)+1)/48000 := by
    rw [hc1, hsr, hp]; ring
  have hcast : ((n:ℝ) + 1) < 48000 := by exact_mod_cast hn
  have hlt : ¬ (1.0 ≤ x.phase + cclamp 1 0.0 1000.0 * x.sr_inv) := by
    rw [hph1, not_le]
    linarith
  have hnn : 0 ≤ x.phase + cclamp 1 0.0 1000.0 * x.sr_inv := by
    rw [hph1]
    positivity
  have hid : (simulate_bounce x (x.phase + cclamp 1 0.0 1000.0 * x.sr_inv)
      (1/2) (1/10)).2 = x :=
    simulate_bounce_state_id x _ he hnn (by rw [hph1]; linarith)
  simp only [performStep, hm, if_true, hty, hc2, hc3, applySim_zero]
  rw [if_neg hlt, if_neg hlt, if_neg hlt, wrapNonneg_of_nonneg hnn, hid]
  exact ⟨rfl, _, by rw [hph1, hm]⟩

/-- The scenario sample that reaches the cycle boundary: the wrap fires,
the phase returns to 0 and the physics state is fully reset; the bounce
simulation at phase 0 then leaves the reset state untouched. -/
lemma performStep_c9_last (x : LfoState) (hm : x.looping_mode = true)
    (hsr : x.sr_inv = 1/48000) (hp : x.phase = 47999/48000) :
    (performStep x 1 0 (1/2) (1/10)).wrapped = true ∧
    ∃ v, (performStep x 1 0 (1/2) (1/10)).state =
      { x with phase := 0, velocity := 0, acceleration := 0, energy := 1,
               bounce_count := 0, spin_phase := 0, last_value := v } := by
  have hc1 : cclamp 1 0.0 1000.0 = 1 := by unfold cclamp; norm_num
  have hty : ctrunc (cclamp 0 0.0 5.0) = 0 := by
    unfold cclamp ctrunc
    norm_num
  have hc2 : cclamp (1/2) 0.0 1.0 = 1/2 := by unfold cclamp; norm_num
  have hc3 : cclamp (1/10) 0.0 1.0 = 1/10 := by unfold cclamp; norm_num
  have hph1 : x.phase + cclamp 1 0.0 1000.0 * x.sr_inv = 1 := by
    rw [hc1, hsr, hp]; ring
  have hge : (1.0 : ℝ) ≤ x.phase + cclamp 1 0.0 1000.0 * x.sr_inv := by
    rw [hph1]
    norm_num
  have hzero : x.phase + cclamp 1 0.0 1000.0 * x.sr_inv - 1.0 = 0 := by
    rw [hph1]; ring
  have hid : (simulate_bounce (reset_physics_state x) 0 (1/2) (1/10)).2 =
      reset_physics_state x :=
    simulate_bounce_state_id (reset_physics_state x) 0 rfl le_rfl (by norm_num)
  simp only [performStep, hm, if_true, hty, hc2, hc3, applySim_zero]
  rw [if_pos hge, if_pos hge, if_pos hge, hzero, wrapNonneg_of_nonneg le_rfl, hid]
  refine ⟨rfl, (simulate_bounce (reset_physics_state x) 0 (1/2) (1/10)).1, ?_⟩
  simp [reset_physics_state, hm]

/-- Driving the scenario k samples from phase n over 48000 without reaching
sample 48000 produces no wrap, advances the phase k ticks, and leaves
energy and bounce_count untouched. -/
lemma runConst_c9_inv (k : ℕ) :
    ∀ (n : ℕ) (x : LfoState), x.looping_mode = true → x.sr_inv = 1/48000 →
      x.phase = (n : ℝ)/48000 → x.energy = 1 → n + k ≤ 47999 →
      (runConst 1 0 (1/2) (1/10) x k).2 = 0 ∧
      (runConst 1 0 (1/2) (1/10) x k).1.phase = ((n : ℝ) + k)/48000 ∧
      (runConst 1 0 (1/2) (1/10) x k).1.energy = 1 ∧
      (runConst 1 0 (1/2) (1/10) x k).1.bounce_count = x.bounce_count ∧
      (runConst 1 0 (1/2) (1/10) x k).1.looping_mode = true ∧
      (runConst 1 0 (1/2) (1/10) x k).1.sr_inv = 1/48000 := by
  induction k with
  | zero =>
      intro n x hm hsr hp he hnk
      simp [runConst, hp, he, hm, hsr]
  | succ k ih =>
      intro n x hm hsr hp he hnk
      have hn1 : n + 1 < 48000 := by omega
      obtain ⟨hw, v, hs⟩ := performStep_c9_mid x n hm hsr hp he hn1
      simp only [runConst]
      rw [hw, hs]
      have hrec := ih (n + 1)
        { x with phase := ((n : ℝ) + 1)/48000, last_value := v }
        (by simp [hm]) (by simp [hsr]) (by push_cast; simp) (by simp [he])
        (by omega)
      obtain ⟨h1, h2, h3, h4, h5, h6⟩ := hrec
      refine ⟨by rw [if_neg Bool.false_ne_true, h1], ?_, h3, h4, h5, h6⟩
      rw [h2]
      push_cast
      ring

/-- Running a single constant-input sample. -/
lemma runConst_one (f ty p d : ℝ) (x : LfoState) :
    runConst f ty p d x 1 =
      ((performStep x f ty p d).state,
       if (performStep x f ty p d).wrapped then 1 else 0) :=
  rfl

/-- C9.  Starting from phase 0 in looping mode with type 0, shape 0.5,
damping 0.1, rate held at 1 Hz and reciprocal sample rate 1/48000, after
exactly 48000 samples exactly one wrap has occurred, and the wrap ran the
full reset, leaving bounce_count at 0 (and phase back at 0 with full
energy). -/
theorem looping_one_second_single_wrap (x : LfoState)
    (hm : x.looping_mode = true) (hsr : x.sr_inv = 1/48000)
    (hp : x.phase = 0) (he : x.energy = 1) :
    (runConst 1 0 (1/2) (1/10) x 48000).2 = 1 ∧
    (runConst 1 0 (1/2) (1/10) x 48000).1.bounce_count = 0 ∧
    (runConst 1 0 (1/2) (1/10) x 48000).1.phase = 0 ∧
    (runConst 1 0 (1/2) (1/10) x 48000).1.energy = 1 := by
  have hinv := runConst_c9_inv 47999 0 x hm hsr (by rw [hp]; norm_num) he
    (by omega)
  obtain ⟨hw0, hyp, hye, hyb, hym, hys⟩ := hinv
  have hy47 : (runConst 1 0 (1/2) (1/10) x 47999).1.phase = 47999/48000 := by
    rw [hyp]; norm_num
  obtain ⟨hw1, v, hs1⟩ :=
    performStep_c9_last (runConst 1 0 (1/2) (1/10) x 47999).1 hym hys hy47
  have hsplit := runConst_add 1 0 (1/2) (1/10) 47999 1 x
  have hone : runConst 1 0 (1/2) (1/10) (runConst 1 0 (1/2) (1/10) x 47999).1 1 =
      ((performStep (runConst 1 0 (1/2) (1/10) x 47999).1 1 0 (1/2) (1/10)).state, 1) := by
    rw [runConst_one, hw1]
    norm_num
  rw [show (48000 : ℕ) = 47999 + 1 by norm_num, hsplit, hone, hw0, hs1]
  simp

/-- C9 witness: the freshly created instance at sample rate 48000. -/
theorem looping_one_second_single_wrap_witness :
    ((initState 48000).looping_mode = true ∧
      (initState 48000).sr_inv = 1/48000 ∧ (initState 48000).phase = 0 ∧
      (initState 48000).energy = 1) ∧
    ((runConst 1 0 (1/2) (1/10) (initState 48000) 48000).2 = 1 ∧
      (runConst 1 0 (1/2) (1/10) (initState 48000) 48000).1.bounce_count = 0 ∧
      (runConst 1 0 (1/2) (1/10) (initState 48000) 48000).1.phase = 0 ∧
      (runConst 1 0 (1/2) (1/10) (initState 48000) 48000).1.energy = 1) :=
  ⟨⟨rfl, by norm_num [initState, reset_physics_state],
    by norm_num [initState, reset_physics_state],
    by norm_num [initState, reset_physics_state]⟩,
   looping_one_second_single_wrap (initState 48000) rfl
     (by norm_num [initState, reset_physics_state])
     (by norm_num [initState, reset_physics_state])
     (by norm_num [initState, reset_physics_state])⟩

end PhysicsLfo
